import Mathlib

/-!
A shallow embedding of the PyMoondust platformer engine (single-file
pygame source): the camera transform and clamping, the axis-separated
player collision resolution, and the level-editor placement, removal and
tool-cycling operations.

Pixel coordinates live in pygame `Rect` fields and are therefore
integers (assigning a float to a `Rect` field truncates it toward zero,
the C cast `(int)`); velocities are Python floats, modelled here as
rationals.  All velocity constants of the source (0.8, 6, 18) are exact
decimals, and none of the verified properties depends on the binary
rounding of 0.8, so the rational model is faithful for every statement
below.
-/

/-- WINDOW_WIDTH of the source. -/
def WINDOW_WIDTH : ℤ := 1200

/-- WINDOW_HEIGHT of the source. -/
def WINDOW_HEIGHT : ℤ := 800

/-- GRID_SIZE of the source: the tile cell size in pixels. -/
def GRID_SIZE : ℤ := 50

/-- LEVEL_WIDTH of the source. -/
def LEVEL_WIDTH : ℤ := 4000

/-- LEVEL_HEIGHT of the source. -/
def LEVEL_HEIGHT : ℤ := 2000

/-- Truncation toward zero, as Python's int() / the C cast pygame applies
when a float is assigned to an integer Rect field. -/
def pyInt (q : ℚ) : ℤ := if 0 ≤ q then ⌊q⌋ else ⌈q⌉

/-- A pygame Rect: integer top-left corner and size. -/
structure PRect where
  x : ℤ
  y : ℤ
  w : ℤ
  h : ℤ
deriving DecidableEq, Repr

/-- pygame Rect.colliderect (as used by pygame.sprite.spritecollide):
strict overlap on both axes, touching edges do not collide. -/
def collide (a b : PRect) : Bool :=
  decide (a.x < b.x + b.w) && decide (b.x < a.x + a.w) &&
  decide (a.y < b.y + b.h) && decide (b.y < a.y + a.h)

/-- pygame Rect.collidepoint: left and top edges are inside, right and
bottom edges are not. -/
def collidepoint (r : PRect) (px py : ℤ) : Bool :=
  decide (r.x ≤ px) && decide (px < r.x + r.w) &&
  decide (r.y ≤ py) && decide (py < r.y + r.h)

/-- The Camera: `ox`/`oy` are the stored scroll offset
(`camera.camera.topleft`), `width`/`height` the world size the camera
was constructed with. -/
structure Camera where
  ox : ℤ
  oy : ℤ
  width : ℤ
  height : ℤ
deriving DecidableEq, Repr

/-- Camera.update of the source: center on the target rect, then clamp
the offset to the map size. -/
def Camera.update (c : Camera) (target : PRect) : Camera :=
  let x := -(target.x + target.w.tdiv 2) + WINDOW_WIDTH.tdiv 2
  let y := -(target.y + target.h.tdiv 2) + WINDOW_HEIGHT.tdiv 2
  { c with ox := min 0 (max (-(c.width - WINDOW_WIDTH)) x),
           oy := min 0 (max (-(c.height - WINDOW_HEIGHT)) y) }

/-- Camera.simple_pan of the source: add a delta to the offset, then
apply the same clamp as Camera.update. -/
def Camera.simple_pan (c : Camera) (dx dy : ℤ) : Camera :=
  let x := c.ox + dx
  let y := c.oy + dy
  { c with ox := min 0 (max (-(c.width - WINDOW_WIDTH)) x),
           oy := min 0 (max (-(c.height - WINDOW_HEIGHT)) y) }

/-- Camera.apply_rect of the source: rect.move(camera.topleft), the
world-to-screen transform. -/
def Camera.apply_rect (c : Camera) (r : PRect) : PRect :=
  { r with x := r.x + c.ox, y := r.y + c.oy }

/-- The screen-to-world conversion the editor performs inline:
world = screen - camera offset. -/
def Camera.to_world (c : Camera) (p : ℤ × ℤ) : ℤ × ℤ :=
  (p.1 - c.ox, p.2 - c.oy)

/-- The keyboard snapshot Player.update reads. -/
structure Keys where
  left : Bool
  right : Bool
  space : Bool
deriving DecidableEq, Repr

/-- The Player: integer pygame rect, rational (float) velocity vector,
grounded flag and facing flag. -/
structure Player where
  rect : PRect
  velx : ℚ
  vely : ℚ
  on_ground : Bool
  facing_right : Bool
deriving DecidableEq, Repr

/-- Horizontal intent: arrow keys set vel.x to ±6, otherwise vel.x is
multiplied by the friction factor 0.8. -/
def stepInput (k : Keys) (p : Player) : Player :=
  if k.left then { p with velx := -6, facing_right := false }
  else if k.right then { p with velx := 6, facing_right := true }
  else { p with velx := p.velx * (4 / 5) }

/-- Jump: space while grounded sets vel.y to -18 and clears the flag. -/
def stepJump (k : Keys) (p : Player) : Player :=
  if k.space && p.on_ground then { p with vely := -18, on_ground := false }
  else p

/-- Gravity: vel.y += 0.8, unconditionally. -/
def stepGravity (p : Player) : Player := { p with vely := p.vely + 4 / 5 }

/-- The player's rect after `self.rect.x += self.vel.x` (truncating
assignment to the integer rect field). -/
def xMoved (p : Player) : PRect := { p.rect with x := pyInt ((p.rect.x : ℚ) + p.velx) }

/-- One iteration of the horizontal resolution loop: snap against the
block according to the sign of the current vel.x, then zero vel.x
(the source zeroes vel.x on every iteration, outside the if/elif). -/
def resolveX (st : PRect × ℚ) (b : PRect) : PRect × ℚ :=
  let r := st.1
  let vx := st.2
  let r' := if 0 < vx then { r with x := b.x - r.w }
            else if vx < 0 then { r with x := b.x + b.w } else r
  (r', 0)

/-- Move X of the source: apply vel.x to the rect, collect the
overlapping blocks once, then run the resolution loop over them. -/
def stepMoveX (blocks : List PRect) (p : Player) : Player :=
  let r := xMoved p
  let res := (blocks.filter fun b => collide r b).foldl resolveX (r, p.velx)
  { p with rect := res.1, velx := res.2 }

/-- The player's rect after `self.rect.y += self.vel.y`. -/
def yMoved (p : Player) : PRect := { p.rect with y := pyInt ((p.rect.y : ℚ) + p.vely) }

/-- One iteration of the vertical resolution loop: falling snaps the
bottom to the block top, zeroes vel.y and grounds the player; rising
snaps the top to the block bottom and zeroes vel.y (vel.y is only
zeroed inside the two branches here, unlike the horizontal loop). -/
def resolveY (st : PRect × ℚ × Bool) (b : PRect) : PRect × ℚ × Bool :=
  let r := st.1
  let vy := st.2.1
  let og := st.2.2
  if 0 < vy then ({ r with y := b.y - r.h }, 0, true)
  else if vy < 0 then ({ r with y := b.y + b.h }, 0, og)
  else (r, vy, og)

/-- Move Y of the source: apply vel.y, clear on_ground, collect the
overlapping blocks once, then run the vertical resolution loop. -/
def stepMoveY (blocks : List PRect) (p : Player) : Player :=
  let r := yMoved p
  let res := (blocks.filter fun b => collide r b).foldl resolveY (r, p.vely, false)
  { p with rect := res.1, vely := res.2.1, on_ground := res.2.2 }

/-- First world-bounds clause: `if self.rect.left < 0: self.rect.left = 0`. -/
def clampLeft (p : Player) : Player :=
  if p.rect.x < 0 then { p with rect := { p.rect with x := 0 } } else p

/-- Second world-bounds clause: `if self.rect.right > LEVEL_WIDTH:
self.rect.right = LEVEL_WIDTH`. -/
def clampRight (p : Player) : Player :=
  if LEVEL_WIDTH < p.rect.x + p.rect.w then
    { p with rect := { p.rect with x := LEVEL_WIDTH - p.rect.w } }
  else p

/-- Third world-bounds clause: a bottom edge beyond LEVEL_HEIGHT is
pinned there, the player is grounded and vel.y zeroed. -/
def clampBottom (p : Player) : Player :=
  if LEVEL_HEIGHT < p.rect.y + p.rect.h then
    { p with rect := { p.rect with y := LEVEL_HEIGHT - p.rect.h },
             vely := 0, on_ground := true }
  else p

/-- World bounds of the source: the three clamp clauses in order. -/
def stepBounds (p : Player) : Player := clampBottom (clampRight (clampLeft p))

/-- Player.update of the source: intent, jump, gravity, Move X,
Move Y, world bounds, in exactly this order. -/
def Player.update (k : Keys) (blocks : List PRect) (p : Player) : Player :=
  stepBounds (stepMoveY blocks (stepMoveX blocks (stepGravity (stepJump k (stepInput k p)))))

/-- An Entity of the source: a sprite with an integer rect and a tile
kind.  `isPlayer` models object identity with the global player sprite
(exactly one entity of a reachable state has it set). -/
structure Entity where
  rect : PRect
  kind : String
  isPlayer : Bool
deriving DecidableEq, Repr

/-- Width of the generated asset for a tile kind (ASSETS of the source:
tiles are GRID_SIZE squares, the goomba is 40 by 40, the player 40 by
50; unknown kinds fall back to the ground texture). -/
def assetW : String → ℤ
  | "goomba" => 40
  | "player" => 40
  | _ => 50

/-- Height of the generated asset for a tile kind. -/
def assetH : String → ℤ
  | "goomba" => 40
  | _ => 50

/-- Entity construction: the rect is the asset's rect with the given
top-left corner. -/
def mkEnt (x y : ℤ) (kind : String) : Entity :=
  ⟨⟨x, y, assetW kind, assetH kind⟩, kind, false⟩

/-- Python floor division by GRID_SIZE, multiplied back: the grid-cell
origin containing a world coordinate. -/
def gridCell (w : ℤ) : ℤ := w.fdiv GRID_SIZE * GRID_SIZE

/-- The editor tile catalog of the source. -/
def editor_tiles : List String :=
  ["ground", "grass_top", "brick", "question", "pipe", "goomba"]

/-- Fallback tile kind for out-of-range catalog reads (the source never
reads out of range: the cursor is kept below the catalog length). -/
def defaultTile : String := "ground"

/-- TAB in the editor: advance the tool cursor, wrapping modulo the
catalog length. -/
def cycleTool (i : ℕ) : ℕ := (i + 1) % editor_tiles.length

/-- The editor occupancy probe: some sprite's rect contains the world
pointer offset by (10, 10). -/
def occupiedAt (sprites : List Entity) (wx wy : ℤ) : Bool :=
  sprites.any fun s => collidepoint s.rect (wx + 10) (wy + 10)

/-- Left click in the editor at world pointer (wx, wy) with tool `idx`:
no-op when the probe point is occupied, otherwise a new entity at the
pointed grid cell is appended to the sprite list and, unless its kind
is "goomba", to the collision block list. -/
def editorPlace (sprites blocks : List Entity) (wx wy : ℤ) (idx : ℕ) :
    List Entity × List Entity :=
  if occupiedAt sprites wx wy then (sprites, blocks)
  else
    let kind := editor_tiles.getD idx defaultTile
    let ent := mkEnt (gridCell wx) (gridCell wy) kind
    (sprites ++ [ent], if kind ≠ "goomba" then blocks ++ [ent] else blocks)

/-- Right click in the editor: `s.kill()` every sprite other than the
player whose rect contains the world pointer.  kill() removes the
sprite from every group it belongs to, so matching entities leave both
the sprite list and the block list (every block of a reachable state is
also a sprite). -/
def editorRemove (sprites blocks : List Entity) (wx wy : ℤ) :
    List Entity × List Entity :=
  (sprites.filter fun s => !(collidepoint s.rect wx wy && !s.isPlayer),
   blocks.filter fun s => !(collidepoint s.rect wx wy && !s.isPlayer))

/-- Modelled from the spec's words, for comparison with `editorRemove`
(which is translated from the source): "deletes the first entity
(excluding the player) whose rectangle contains `world_point`". -/
def removeFirstSpec (l : List Entity) (wx wy : ℤ) : List Entity :=
  l.eraseP fun s => collidepoint s.rect wx wy && !s.isPlayer

/-- The player sprite as reset_level spawns it: Player(100,
LEVEL_HEIGHT - 300), with the 40 by 50 player asset rect. -/
def playerEnt : Entity := ⟨⟨100, LEVEL_HEIGHT - 300, 40, 50⟩, "player", true⟩


/-- Invariant the spec states for the stored camera x offset. -/
def camInvX (c : Camera) : Prop :=
  (WINDOW_WIDTH ≤ c.width → -(c.width - WINDOW_WIDTH) ≤ c.ox ∧ c.ox ≤ 0) ∧
  (c.width < WINDOW_WIDTH → c.ox = 0)

/-- Invariant the spec states for the stored camera y offset. -/
def camInvY (c : Camera) : Prop :=
  (WINDOW_HEIGHT ≤ c.height → -(c.height - WINDOW_HEIGHT) ≤ c.oy ∧ c.oy ≤ 0) ∧
  (c.height < WINDOW_HEIGHT → c.oy = 0)

/-- An empty keyboard snapshot. -/
def keysNone : Keys := ⟨false, false, false⟩

/-- A snapshot holding only the right arrow. -/
def keysRight : Keys := ⟨false, true, false⟩

/-- A player falling at the speed cap onto the floor below (witness state). -/
def pFall : Player := ⟨⟨0, 0, 40, 50⟩, 0, 50, false, true⟩

/-- A single-cell-thick floor strip below pFall. -/
def flFall : PRect := ⟨0, 60, 200, 50⟩

/-- A player standing just left of a wall (witness state). -/
def pWall : Player := ⟨⟨0, 0, 40, 50⟩, 0, 0, false, true⟩

/-- A wall cell directly to the right of pWall. -/
def wallR : PRect := ⟨40, 0, 50, 50⟩

/-- A player about to drop past the bottom of the level (witness state). -/
def pDrop : Player := ⟨⟨100, 1990, 40, 50⟩, 0, 30, false, true⟩

/-- A player coasting with a sub-unit leftward velocity (counterexample
state for the sub-pixel claim). -/
def pDrift : Player := ⟨⟨5, 0, 40, 50⟩, -1/2, 0, false, true⟩

lemma stepInput_rect (k : Keys) (p : Player) : (stepInput k p).rect = p.rect := by
  unfold stepInput; split_ifs <;> rfl

lemma stepInput_vely (k : Keys) (p : Player) : (stepInput k p).vely = p.vely := by
  unfold stepInput; split_ifs <;> rfl

lemma stepInput_on_ground (k : Keys) (p : Player) : (stepInput k p).on_ground = p.on_ground := by
  unfold stepInput; split_ifs <;> rfl

lemma stepInput_velx_coast (k : Keys) (p : Player) (hl : k.left = false) (hr : k.right = false) :
    (stepInput k p).velx = p.velx * (4 / 5) := by
  unfold stepInput; rw [hl, hr]; rfl

lemma stepJump_rect (k : Keys) (p : Player) : (stepJump k p).rect = p.rect := by
  unfold stepJump; split_ifs <;> rfl

lemma stepJump_velx (k : Keys) (p : Player) : (stepJump k p).velx = p.velx := by
  unfold stepJump; split_ifs <;> rfl

lemma stepJump_of_airborne (k : Keys) (p : Player) (h : p.on_ground = false) :
    stepJump k p = p := by
  unfold stepJump; rw [h, Bool.and_false]; rfl

lemma stepGravity_rect (p : Player) : (stepGravity p).rect = p.rect := rfl

lemma stepGravity_velx (p : Player) : (stepGravity p).velx = p.velx := rfl

lemma stepGravity_vely (p : Player) : (stepGravity p).vely = p.vely + 4 / 5 := rfl

lemma xMoved_y (p : Player) : (xMoved p).y = p.rect.y := rfl

lemma xMoved_w (p : Player) : (xMoved p).w = p.rect.w := rfl

lemma xMoved_h (p : Player) : (xMoved p).h = p.rect.h := rfl

lemma yMoved_x (p : Player) : (yMoved p).x = p.rect.x := rfl

lemma yMoved_w (p : Player) : (yMoved p).w = p.rect.w := rfl

lemma yMoved_h (p : Player) : (yMoved p).h = p.rect.h := rfl

lemma collide_eq_true_iff (a b : PRect) :
    collide a b = true ↔ a.x < b.x + b.w ∧ b.x < a.x + a.w ∧ a.y < b.y + b.h ∧ b.y < a.y + a.h := by
  simp [collide, and_assoc]

lemma collide_eq_false_iff (a b : PRect) :
    collide a b = false ↔ ¬(a.x < b.x + b.w ∧ b.x < a.x + a.w ∧ a.y < b.y + b.h ∧ b.y < a.y + a.h) := by
  rw [← Bool.not_eq_true, collide_eq_true_iff]

lemma collidepoint_eq_true_iff (r : PRect) (px py : ℤ) :
    collidepoint r px py = true ↔
      r.x ≤ px ∧ px < r.x + r.w ∧ r.y ≤ py ∧ py < r.y + r.h := by
  simp [collidepoint, and_assoc]

lemma stepMoveX_nil (p : Player) : stepMoveX [] p = { p with rect := xMoved p } := by
  unfold stepMoveX; rfl

lemma stepMoveX_single_nocol (b : PRect) (p : Player) (h : collide (xMoved p) b = false) :
    stepMoveX [b] p = { p with rect := xMoved p } := by
  unfold stepMoveX
  simp [List.filter_singleton, h]

lemma stepMoveX_single_pos (b : PRect) (p : Player)
    (hc : collide (xMoved p) b = true) (hv : 0 < p.velx) :
    stepMoveX [b] p = { p with rect := { p.rect with x := b.x - p.rect.w }, velx := 0 } := by
  unfold xMoved at hc
  unfold stepMoveX
  simp [List.filter_singleton, hc, resolveX, hv, xMoved]

lemma stepMoveX_single_neg (b : PRect) (p : Player)
    (hc : collide (xMoved p) b = true) (hv : p.velx < 0) :
    stepMoveX [b] p = { p with rect := { p.rect with x := b.x + b.w }, velx := 0 } := by
  have h1 : ¬(0 < p.velx) := not_lt.mpr hv.le
  unfold xMoved at hc
  unfold stepMoveX
  simp [List.filter_singleton, hc, resolveX, hv, h1, xMoved]

lemma stepMoveY_nil (p : Player) :
    stepMoveY [] p = { p with rect := yMoved p, on_ground := false } := by
  unfold stepMoveY; rfl

lemma stepMoveY_single_nocol (b : PRect) (p : Player) (h : collide (yMoved p) b = false) :
    stepMoveY [b] p = { p with rect := yMoved p, on_ground := false } := by
  unfold stepMoveY
  simp [List.filter_singleton, h]

lemma stepMoveY_single_fall (b : PRect) (p : Player)
    (hc : collide (yMoved p) b = true) (hv : 0 < p.vely) :
    stepMoveY [b] p =
      { p with rect := { p.rect with y := b.y - p.rect.h }, vely := 0, on_ground := true } := by
  unfold yMoved at hc
  unfold stepMoveY
  simp [List.filter_singleton, hc, resolveY, hv, yMoved]

lemma clampLeft_of_nonneg (p : Player) (h : 0 ≤ p.rect.x) : clampLeft p = p := by
  unfold clampLeft; rw [if_neg (not_lt.mpr h)]

lemma clampRight_of_le (p : Player) (h : p.rect.x + p.rect.w ≤ LEVEL_WIDTH) : clampRight p = p := by
  unfold clampRight; rw [if_neg (not_lt.mpr h)]

lemma clampBottom_of_le (p : Player) (h : p.rect.y + p.rect.h ≤ LEVEL_HEIGHT) :
    clampBottom p = p := by
  unfold clampBottom; rw [if_neg (not_lt.mpr h)]

lemma clampBottom_of_gt (p : Player) (h : LEVEL_HEIGHT < p.rect.y + p.rect.h) :
    clampBottom p = { p with rect := { p.rect with y := LEVEL_HEIGHT - p.rect.h },
                             vely := 0, on_ground := true } := by
  unfold clampBottom; rw [if_pos h]

lemma clampLeft_y (p : Player) : (clampLeft p).rect.y = p.rect.y := by
  unfold clampLeft; split_ifs <;> rfl

lemma clampLeft_h (p : Player) : (clampLeft p).rect.h = p.rect.h := by
  unfold clampLeft; split_ifs <;> rfl

lemma clampLeft_velx (p : Player) : (clampLeft p).velx = p.velx := by
  unfold clampLeft; split_ifs <;> rfl

lemma clampLeft_vely (p : Player) : (clampLeft p).vely = p.vely := by
  unfold clampLeft; split_ifs <;> rfl

lemma clampLeft_on_ground (p : Player) : (clampLeft p).on_ground = p.on_ground := by
  unfold clampLeft; split_ifs <;> rfl

lemma clampRight_y (p : Player) : (clampRight p).rect.y = p.rect.y := by
  unfold clampRight; split_ifs <;> rfl

lemma clampRight_h (p : Player) : (clampRight p).rect.h = p.rect.h := by
  unfold clampRight; split_ifs <;> rfl

lemma clampRight_velx (p : Player) : (clampRight p).velx = p.velx := by
  unfold clampRight; split_ifs <;> rfl

lemma clampRight_vely (p : Player) : (clampRight p).vely = p.vely := by
  unfold clampRight; split_ifs <;> rfl

lemma clampRight_on_ground (p : Player) : (clampRight p).on_ground = p.on_ground := by
  unfold clampRight; split_ifs <;> rfl

lemma clampBottom_x (p : Player) : (clampBottom p).rect.x = p.rect.x := by
  unfold clampBottom; split_ifs <;> rfl

lemma clampBottom_w (p : Player) : (clampBottom p).rect.w = p.rect.w := by
  unfold clampBottom; split_ifs <;> rfl

lemma clampBottom_velx (p : Player) : (clampBottom p).velx = p.velx := by
  unfold clampBottom; split_ifs <;> rfl

lemma pyInt_of_nonneg (q : ℚ) (h : 0 ≤ q) : pyInt q = ⌊q⌋ := if_pos h

lemma pyInt_int_add (n : ℤ) (q : ℚ) (h : 0 ≤ (n : ℚ) + q) :
    pyInt ((n : ℚ) + q) = n + ⌊q⌋ := by
  unfold pyInt; rw [if_pos h, Int.floor_int_add]

lemma gridCell_le (w : ℤ) : gridCell w ≤ w := by
  unfold gridCell GRID_SIZE
  rw [Int.fdiv_eq_ediv _ (by norm_num)]
  exact Int.ediv_mul_le w (by norm_num)

lemma editorPlace_of_occupied (sprites blocks : List Entity) (wx wy : ℤ) (idx : ℕ)
    (hb : occupiedAt sprites wx wy = true) :
    editorPlace sprites blocks wx wy idx = (sprites, blocks) := by
  simp [editorPlace, hb]

lemma editorPlace_fst_free (sprites blocks : List Entity) (wx wy : ℤ) (idx : ℕ)
    (hb : occupiedAt sprites wx wy = false) :
    (editorPlace sprites blocks wx wy idx).1 =
      sprites ++ [mkEnt (gridCell wx) (gridCell wy) (editor_tiles.getD idx defaultTile)] := by
  simp [editorPlace, hb]


/-- C1: for every player state falling (airborne, downward velocity of
magnitude at most the cell size 50) onto a single-cell-thick floor block
that it reaches and horizontally overlaps this tick, one call to
Player.update ends with the player's bottom edge equal to the floor's
top edge, vel.y zero and the grounded flag set.  The hypotheses carve
out exactly the claim's scenario: the player starts above an in-level
floor, the post-gravity displacement lands its bottom past the floor
top, and the horizontally-moved rect still overlaps the floor span. -/
theorem player_falls_onto_thin_floor (k : Keys) (p : Player) (fl : PRect)
    (hog : p.on_ground = false)
    (hvy0 : 0 ≤ p.vely) (hvy1 : p.vely ≤ 50)
    (hy0 : 0 ≤ p.rect.y) (hph : 0 < p.rect.h)
    (hfh : fl.h = GRID_SIZE)
    (habove : p.rect.y + p.rect.h ≤ fl.y)
    (hfly : fl.y ≤ LEVEL_HEIGHT)
    (hx1 : (stepMoveX [fl] (stepGravity (stepJump k (stepInput k p)))).rect.x < fl.x + fl.w)
    (hx2 : fl.x < (stepMoveX [fl] (stepGravity (stepJump k (stepInput k p)))).rect.x + p.rect.w)
    (hland : fl.y < p.rect.y + ⌊p.vely + 4 / 5⌋ + p.rect.h) :
    (Player.update k [fl] p).rect.y + (Player.update k [fl] p).rect.h = fl.y ∧
    (Player.update k [fl] p).vely = 0 ∧
    (Player.update k [fl] p).on_ground = true := by
  have hjump : stepJump k (stepInput k p) = stepInput k p :=
    stepJump_of_airborne k _ (by rw [stepInput_on_ground]; exact hog)
  rw [hjump] at hx1 hx2
  have hupd : Player.update k [fl] p =
      stepBounds (stepMoveY [fl] (stepMoveX [fl] (stepGravity (stepInput k p)))) := by
    unfold Player.update; rw [hjump]
  set s2 := stepGravity (stepInput k p) with hs2
  have hr2 : s2.rect = p.rect := by rw [hs2, stepGravity_rect, stepInput_rect]
  have hv2 : s2.vely = p.vely + 4 / 5 := by rw [hs2, stepGravity_vely, stepInput_vely]
  have hvpos : 0 < s2.vely := by rw [hv2]; linarith
  have hxnc : collide (xMoved s2) fl = false := by
    apply (collide_eq_false_iff _ _).mpr
    intro hcontr
    have h4 : fl.y < (xMoved s2).y + (xMoved s2).h := hcontr.2.2.2
    rw [xMoved_y, xMoved_h, hr2] at h4
    omega
  have hs3 := stepMoveX_single_nocol fl s2 hxnc
  rw [hs3] at hx1 hx2
  set s3 : Player := { s2 with rect := xMoved s2 } with hs3def
  have hfl51 : ⌊s2.vely⌋ ≤ 50 := by
    have h51 : ⌊s2.vely⌋ < 51 := Int.floor_lt.mpr (by rw [hv2]; push_cast; linarith)
    omega
  have hfl0 : 0 ≤ ⌊s2.vely⌋ := Int.le_floor.mpr (by rw [hv2]; push_cast; linarith)
  have hy3 : s3.rect.y = p.rect.y := by
    show (xMoved s2).y = p.rect.y
    rw [xMoved_y, hr2]
  have hy' : (yMoved s3).y = p.rect.y + ⌊s2.vely⌋ := by
    show pyInt ((s3.rect.y : ℚ) + s3.vely) = p.rect.y + ⌊s2.vely⌋
    rw [hy3]
    show pyInt ((p.rect.y : ℚ) + s2.vely) = p.rect.y + ⌊s2.vely⌋
    apply pyInt_int_add
    have hcy : (0 : ℚ) ≤ (p.rect.y : ℚ) := by exact_mod_cast hy0
    linarith
  have hh3 : (yMoved s3).h = p.rect.h := by
    rw [yMoved_h]
    show (xMoved s2).h = p.rect.h
    rw [xMoved_h, hr2]
  have hcolY : collide (yMoved s3) fl = true := by
    apply (collide_eq_true_iff _ _).mpr
    refine ⟨?_, ?_, ?_, ?_⟩
    · exact hx1
    · have hw3 : (yMoved s3).w = p.rect.w := by
        rw [yMoved_w]
        show (xMoved s2).w = p.rect.w
        rw [xMoved_w, hr2]
      rw [yMoved_x, hw3]
      exact hx2
    · rw [hy', hfh]
      rw [show GRID_SIZE = (50 : ℤ) from rfl]
      omega
    · rw [hy', hh3]
      rw [hv2]
      omega
  have hfall := stepMoveY_single_fall fl s3 hcolY hvpos
  rw [hupd, hs3, hfall]
  set s5 : Player := { s3 with rect := { s3.rect with y := fl.y - s3.rect.h }, vely := 0, on_ground := true } with hs5
  have hh5 : s5.rect.h = p.rect.h := by
    show s3.rect.h = p.rect.h
    show (xMoved s2).h = p.rect.h
    rw [xMoved_h, hr2]
  have hy5 : s5.rect.y = fl.y - s3.rect.h := rfl
  have hh35 : s3.rect.h = p.rect.h := hh5
  have hbot : (clampRight (clampLeft s5)).rect.y + (clampRight (clampLeft s5)).rect.h ≤
      LEVEL_HEIGHT := by
    rw [clampRight_y, clampRight_h, clampLeft_y, clampLeft_h, hy5, hh5]
    omega
  show (clampBottom (clampRight (clampLeft s5))).rect.y +
      (clampBottom (clampRight (clampLeft s5))).rect.h = fl.y ∧
    (clampBottom (clampRight (clampLeft s5))).vely = 0 ∧
    (clampBottom (clampRight (clampLeft s5))).on_ground = true
  rw [clampBottom_of_le _ hbot]
  refine ⟨?_, ?_, ?_⟩
  · rw [clampRight_y, clampRight_h, clampLeft_y, clampLeft_h, hy5, hh5]
    omega
  · rw [clampRight_vely, clampLeft_vely]
  · rw [clampRight_on_ground, clampLeft_on_ground]

/-- C1 witness: the player pFall (bottom at 50, falling at the cap 50)
lands on the floor strip flFall whose top edge is 60. -/
theorem player_falls_onto_thin_floor_witness :
    (Player.update keysNone [flFall] pFall).rect.y +
      (Player.update keysNone [flFall] pFall).rect.h = 60 ∧
    (Player.update keysNone [flFall] pFall).vely = 0 ∧
    (Player.update keysNone [flFall] pFall).on_ground = true :=
  player_falls_onto_thin_floor keysNone pFall flFall rfl (by norm_num [pFall])
    (by norm_num [pFall]) (by decide) (by decide) rfl (by decide) (by decide)
    (by norm_num [stepMoveX, stepGravity, stepJump, stepInput, xMoved, pyInt, collide,
      keysNone, pFall, flFall, List.filter_singleton])
    (by norm_num [stepMoveX, stepGravity, stepJump, stepInput, xMoved, pyInt, collide,
      keysNone, pFall, flFall, List.filter_singleton])
    (by norm_num [pFall, flFall])

/-- C2: horizontal blocking.  The first conjunct records that the tick
resolves horizontal movement strictly before vertical movement (the
update is literally the bounds clamp after Move Y after Move X).  When
the horizontally moved rectangle overlaps the wall and vel.x is
positive, the tick ends with the right edge on the wall's left edge and
vel.x zero; symmetrically for negative vel.x.  The two in-level side
conditions keep the world-bounds clamp from moving the snapped edge
(every block a reachable level contains satisfies them). -/
theorem player_horizontal_wall_snap (k : Keys) (p : Player) (wall : PRect)
    (hcol : collide (xMoved (stepGravity (stepJump k (stepInput k p)))) wall = true) :
    Player.update k [wall] p =
      stepBounds (stepMoveY [wall] (stepMoveX [wall] (stepGravity (stepJump k (stepInput k p))))) ∧
    (0 < (stepGravity (stepJump k (stepInput k p))).velx →
      0 ≤ wall.x - p.rect.w → wall.x ≤ LEVEL_WIDTH →
      (Player.update k [wall] p).rect.x + (Player.update k [wall] p).rect.w = wall.x ∧
      (Player.update k [wall] p).velx = 0) ∧
    ((stepGravity (stepJump k (stepInput k p))).velx < 0 →
      0 ≤ wall.x + wall.w → wall.x + wall.w + p.rect.w ≤ LEVEL_WIDTH →
      (Player.update k [wall] p).rect.x = wall.x + wall.w ∧
      (Player.update k [wall] p).velx = 0) := by
  have hupd : Player.update k [wall] p =
      stepBounds (stepMoveY [wall] (stepMoveX [wall] (stepGravity (stepJump k (stepInput k p))))) := rfl
  set s2 := stepGravity (stepJump k (stepInput k p)) with hs2
  have hrect : s2.rect = p.rect := by
    rw [hs2, stepGravity_rect, stepJump_rect, stepInput_rect]
  refine ⟨rfl, ?_, ?_⟩
  · intro hv hb1 hb2
    have hx3 := stepMoveX_single_pos wall s2 hcol hv
    set s3 : Player := { s2 with rect := { s2.rect with x := wall.x - s2.rect.w }, velx := 0 } with hs3
    have hnocol : collide (yMoved s3) wall = false := by
      apply (collide_eq_false_iff _ _).mpr
      intro hcontr
      have h2 : wall.x < wall.x - s2.rect.w + s2.rect.w := hcontr.2.1
      omega
    have hy4 := stepMoveY_single_nocol wall s3 hnocol
    rw [hupd, hx3, hy4]
    set s4 : Player := { s3 with rect := yMoved s3, on_ground := false } with hs4
    have hx4 : s4.rect.x = wall.x - s2.rect.w := rfl
    have hw4 : s4.rect.w = s2.rect.w := rfl
    have hw2 : s2.rect.w = p.rect.w := by rw [hrect]
    have hcl : clampLeft s4 = s4 := clampLeft_of_nonneg s4 (by rw [hx4, hw2]; omega)
    have hcr : clampRight s4 = s4 := clampRight_of_le s4 (by rw [hx4, hw4]; omega)
    show (clampBottom (clampRight (clampLeft s4))).rect.x +
        (clampBottom (clampRight (clampLeft s4))).rect.w = wall.x ∧
      (clampBottom (clampRight (clampLeft s4))).velx = 0
    rw [hcl, hcr, clampBottom_x, clampBottom_w, clampBottom_velx]
    exact ⟨by rw [hx4, hw4]; omega, rfl⟩
  · intro hv hb1 hb2
    have hx3 := stepMoveX_single_neg wall s2 hcol hv
    set s3 : Player := { s2 with rect := { s2.rect with x := wall.x + wall.w }, velx := 0 } with hs3
    have hnocol : collide (yMoved s3) wall = false := by
      apply (collide_eq_false_iff _ _).mpr
      intro hcontr
      have h2 : wall.x + wall.w < wall.x + wall.w := hcontr.1
      omega
    have hy4 := stepMoveY_single_nocol wall s3 hnocol
    rw [hupd, hx3, hy4]
    set s4 : Player := { s3 with rect := yMoved s3, on_ground := false } with hs4
    have hx4 : s4.rect.x = wall.x + wall.w := rfl
    have hw4 : s4.rect.w = s2.rect.w := rfl
    have hw2 : s2.rect.w = p.rect.w := by rw [hrect]
    have hcl : clampLeft s4 = s4 := clampLeft_of_nonneg s4 (by rw [hx4]; omega)
    have hcr : clampRight s4 = s4 := clampRight_of_le s4 (by rw [hx4, hw4, hw2]; omega)
    show (clampBottom (clampRight (clampLeft s4))).rect.x = wall.x + wall.w ∧
      (clampBottom (clampRight (clampLeft s4))).velx = 0
    rw [hcl, hcr, clampBottom_x, clampBottom_velx]
    exact ⟨hx4, rfl⟩

/-- C2 witness: pWall runs right (vel.x becomes 6) into the wall cell
wallR at x = 40 and ends the tick with right edge 40 and vel.x 0. -/
theorem player_horizontal_wall_snap_witness :
    (Player.update keysRight [wallR] pWall).rect.x +
      (Player.update keysRight [wallR] pWall).rect.w = 40 ∧
    (Player.update keysRight [wallR] pWall).velx = 0 :=
  (player_horizontal_wall_snap keysRight pWall wallR
      (by norm_num [stepGravity, stepJump, stepInput, xMoved, pyInt, collide,
        keysRight, pWall, wallR])).2.1
    (by norm_num [stepGravity, stepJump, stepInput, keysRight, pWall])
    (by decide) (by decide)

/-- C3: whenever the vertical movement step leaves the player's bottom
edge beyond LEVEL_HEIGHT, the world-bounds clamp at the end of the same
Player.update call pins the bottom edge to exactly LEVEL_HEIGHT,
grounds the player and zeroes vel.y. -/
theorem player_bottom_bound_pin (k : Keys) (blocks : List PRect) (p : Player)
    (h : LEVEL_HEIGHT <
        (stepMoveY blocks (stepMoveX blocks (stepGravity (stepJump k (stepInput k p))))).rect.y +
        (stepMoveY blocks (stepMoveX blocks (stepGravity (stepJump k (stepInput k p))))).rect.h) :
    (Player.update k blocks p).rect.y + (Player.update k blocks p).rect.h = LEVEL_HEIGHT ∧
    (Player.update k blocks p).on_ground = true ∧ (Player.update k blocks p).vely = 0 := by
  set q := stepMoveY blocks (stepMoveX blocks (stepGravity (stepJump k (stepInput k p)))) with hq
  have h2 : LEVEL_HEIGHT < (clampRight (clampLeft q)).rect.y + (clampRight (clampLeft q)).rect.h := by
    rw [clampRight_y, clampRight_h, clampLeft_y, clampLeft_h]; exact h
  have hupd : Player.update k blocks p = clampBottom (clampRight (clampLeft q)) := rfl
  rw [hupd, clampBottom_of_gt _ h2]
  refine ⟨?_, rfl, rfl⟩
  dsimp
  omega

/-- C3 witness: pDrop falls from y = 1990 with no blocks beneath it and
is pinned to the level bottom. -/
theorem player_bottom_bound_pin_witness :
    (Player.update keysNone [] pDrop).rect.y + (Player.update keysNone [] pDrop).rect.h =
      LEVEL_HEIGHT ∧
    (Player.update keysNone [] pDrop).on_ground = true ∧
    (Player.update keysNone [] pDrop).vely = 0 :=
  player_bottom_bound_pin keysNone [] pDrop
    (by norm_num [stepMoveY, stepMoveX, stepGravity, stepJump, stepInput, xMoved, yMoved,
      pyInt, keysNone, pDrop, LEVEL_HEIGHT])

/-- C4: after Camera.update with any target rect, and after any
Camera.simple_pan step, each offset component lies in
[-(world - viewport), 0] when the world dimension is at least the
viewport dimension, and is exactly 0 when the world dimension is
smaller. -/
theorem camera_offset_clamp (c : Camera) (t : PRect) (dx dy : ℤ) :
    (camInvX (c.update t) ∧ camInvY (c.update t)) ∧
    (camInvX (c.simple_pan dx dy) ∧ camInvY (c.simple_pan dx dy)) := by
  unfold camInvX camInvY Camera.update Camera.simple_pan WINDOW_WIDTH WINDOW_HEIGHT
  dsimp only
  refine ⟨⟨⟨?_, ?_⟩, ⟨?_, ?_⟩⟩, ⟨⟨?_, ?_⟩, ⟨?_, ?_⟩⟩⟩ <;> intro h <;> omega

/-- C4 witness: updating a camera over the 4000 by 2000 world onto the
player spawn rect keeps the x offset within [-2800, 0]. -/
theorem camera_offset_clamp_witness :
    -(4000 - 1200) ≤ (Camera.update ⟨0, 0, 4000, 2000⟩ ⟨100, 1700, 40, 50⟩).ox ∧
    (Camera.update ⟨0, 0, 4000, 2000⟩ ⟨100, 1700, 40, 50⟩).ox ≤ 0 :=
  (camera_offset_clamp ⟨0, 0, 4000, 2000⟩ ⟨100, 1700, 40, 50⟩ 0 0).1.1.1 (by decide)

/-- C5: the editor's screen-to-world conversion followed by the
camera's world-to-screen transform (apply_rect) returns every screen
point unchanged, for every camera offset. -/
theorem camera_roundtrip (c : Camera) (sx sy w h : ℤ) :
    (c.apply_rect ⟨(c.to_world (sx, sy)).1, (c.to_world (sx, sy)).2, w, h⟩).x = sx ∧
    (c.apply_rect ⟨(c.to_world (sx, sy)).1, (c.to_world (sx, sy)).2, w, h⟩).y = sy := by
  constructor <;> simp [Camera.apply_rect, Camera.to_world]

/-- C6 counterexample: with only the player sprite present, placing the
ground tool twice at world pointer (45, 5) puts TWO entities at grid
cell (0, 0): the probe point (55, 15) misses the first 50-wide tile
placed at (0, 0), so the second placement is not a no-op and the claim
"exactly one entity at that cell" fails. -/
theorem editor_double_place_duplicate :
    ((editorPlace (editorPlace [playerEnt] [] 45 5 0).1
        (editorPlace [playerEnt] [] 45 5 0).2 45 5 0).1.countP
      fun s => decide (s.rect.x = 0 ∧ s.rect.y = 0)) = 2 ∧
    ¬(((editorPlace (editorPlace [playerEnt] [] 45 5 0).1
        (editorPlace [playerEnt] [] 45 5 0).2 45 5 0).1.countP
      fun s => decide (s.rect.x = 0 ∧ s.rect.y = 0)) = 1) := by
  decide

/-- C6 amended: the second of two back-to-back placements at the same
pointer position is a silent no-op PROVIDED the probe point
(pointer + (10, 10)) falls inside the placed tile's rectangle, i.e. the
pointer offset into the cell stays below (tile width - 10,
tile height - 10); outside that region the probe misses the new tile
and a duplicate is placed. -/
theorem editor_place_second_noop_on_probe_hit (sprites blocks : List Entity) (wx wy : ℤ)
    (idx : ℕ)
    (hpx : wx + 10 < gridCell wx + assetW (editor_tiles.getD idx defaultTile))
    (hpy : wy + 10 < gridCell wy + assetH (editor_tiles.getD idx defaultTile)) :
    editorPlace (editorPlace sprites blocks wx wy idx).1
      (editorPlace sprites blocks wx wy idx).2 wx wy idx =
    editorPlace sprites blocks wx wy idx := by
  by_cases hocc : occupiedAt sprites wx wy = true
  · rw [editorPlace_of_occupied sprites blocks wx wy idx hocc]
    exact editorPlace_of_occupied sprites blocks wx wy idx hocc
  · have hb : occupiedAt sprites wx wy = false := by simpa using hocc
    have h1 : gridCell wx ≤ wx + 10 := by have := gridCell_le wx; omega
    have h2 : gridCell wy ≤ wy + 10 := by have := gridCell_le wy; omega
    have hcp : collidepoint (mkEnt (gridCell wx) (gridCell wy)
        (editor_tiles.getD idx defaultTile)).rect (wx + 10) (wy + 10) = true :=
      (collidepoint_eq_true_iff _ _ _).mpr ⟨h1, hpx, h2, hpy⟩
    have hocc2 : occupiedAt (editorPlace sprites blocks wx wy idx).1 wx wy = true := by
      rw [editorPlace_fst_free sprites blocks wx wy idx hb]
      unfold occupiedAt
      rw [List.any_append]
      have hone : (List.any [mkEnt (gridCell wx) (gridCell wy) (editor_tiles.getD idx defaultTile)]
          fun s => collidepoint s.rect (wx + 10) (wy + 10)) = true := by
        simp only [List.any_cons, List.any_nil, Bool.or_false]
        exact hcp
      rw [hone, Bool.or_true]
    rw [editorPlace_of_occupied _ _ wx wy idx hocc2]

/-- C6 amended witness: placing the ground tool twice at pointer (7, 3),
whose probe (17, 13) lies inside the tile placed at cell (0, 0), leaves
the state of the first placement unchanged. -/
theorem editor_place_second_noop_witness :
    editorPlace (editorPlace [playerEnt] [] 7 3 0).1
      (editorPlace [playerEnt] [] 7 3 0).2 7 3 0 =
    editorPlace [playerEnt] [] 7 3 0 :=
  editor_place_second_noop_on_probe_hit [playerEnt] [] 7 3 0 (by decide) (by decide)

/-- C7 counterexample: with two stacked non-player tiles both containing
world point (5, 5), the delete loop removes BOTH, while the claimed
behavior (delete only the first matching entity) would keep one; the
kill loop has no early exit. -/
theorem editor_remove_deletes_all_matches :
    (editorRemove [mkEnt 0 0 "ground", mkEnt 0 0 "brick"]
        [mkEnt 0 0 "ground", mkEnt 0 0 "brick"] 5 5).1 ≠
      removeFirstSpec [mkEnt 0 0 "ground", mkEnt 0 0 "brick"] 5 5 ∧
    (editorRemove [mkEnt 0 0 "ground", mkEnt 0 0 "brick"]
        [mkEnt 0 0 "ground", mkEnt 0 0 "brick"] 5 5).1.length = 0 ∧
    (removeFirstSpec [mkEnt 0 0 "ground", mkEnt 0 0 "brick"] 5 5).length = 1 := by
  decide

/-- C7 amended: the remove operation deletes EVERY entity other than the
player whose rectangle contains the world point, from both the sprite
collection and the collision collection; an entity survives in either
collection exactly when it is the player or does not contain the
point. -/
theorem editor_remove_membership (sprites blocks : List Entity) (wx wy : ℤ) (e : Entity) :
    (e ∈ (editorRemove sprites blocks wx wy).1 ↔
      e ∈ sprites ∧ (e.isPlayer = true ∨ collidepoint e.rect wx wy = false)) ∧
    (e ∈ (editorRemove sprites blocks wx wy).2 ↔
      e ∈ blocks ∧ (e.isPlayer = true ∨ collidepoint e.rect wx wy = false)) := by
  constructor <;>
    · simp only [editorRemove, List.mem_filter]
      cases hp : e.isPlayer <;> cases hc : collidepoint e.rect wx wy <;> simp [hp, hc]

/-- C8: a successful placement appends the new entity to the sprite
collection, and additionally appends it to the collision block
collection exactly when the selected catalog entry is not the one
enemy-like decorative kind, which sits at index 5 ("goomba"). -/
theorem editor_place_insertion (sprites blocks : List Entity) (wx wy : ℤ) (idx : ℕ)
    (hidx : idx < editor_tiles.length)
    (hocc : occupiedAt sprites wx wy = false) :
    (editorPlace sprites blocks wx wy idx).1 =
      sprites ++ [mkEnt (gridCell wx) (gridCell wy) (editor_tiles.getD idx defaultTile)] ∧
    ((editorPlace sprites blocks wx wy idx).2 =
      blocks ++ [mkEnt (gridCell wx) (gridCell wy) (editor_tiles.getD idx defaultTile)] ↔
      idx ≠ 5) ∧
    (idx = 5 → (editorPlace sprites blocks wx wy idx).2 = blocks) := by
  have h6 : idx < 6 := by simpa [editor_tiles] using hidx
  interval_cases idx <;> simp [editorPlace, hocc, editor_tiles, defaultTile]

/-- C8 witness: placing the ground tool (index 0) into empty collections
at pointer (0, 0) appends the tile to both collections. -/
theorem editor_place_insertion_witness :
    (editorPlace [] [] 0 0 0).1 =
      [] ++ [mkEnt (gridCell 0) (gridCell 0) (editor_tiles.getD 0 defaultTile)] ∧
    ((editorPlace [] [] 0 0 0).2 =
      [] ++ [mkEnt (gridCell 0) (gridCell 0) (editor_tiles.getD 0 defaultTile)] ↔
      (0 : ℕ) ≠ 5) ∧
    ((0 : ℕ) = 5 → (editorPlace [] [] 0 0 0).2 = ([] : List Entity)) :=
  editor_place_insertion [] [] 0 0 0 (by decide) (by decide)

/-- C9: one TAB advances the tool cursor by one modulo the catalog
length, and iterating the cycle exactly catalog-length many times (6)
returns any in-range cursor to its starting value. -/
theorem editor_tool_cycle (i : ℕ) (h : i < editor_tiles.length) :
    cycleTool^[editor_tiles.length] i = i ∧
    cycleTool i = (i + 1) % editor_tiles.length := by
  refine ⟨?_, rfl⟩
  have h6 : i < 6 := by simpa [editor_tiles] using h
  interval_cases i <;> decide

/-- C9 witness: six TABs from cursor 2 return to cursor 2. -/
theorem editor_tool_cycle_witness :
    cycleTool^[editor_tiles.length] 2 = 2 ∧
    cycleTool 2 = (2 + 1) % editor_tiles.length :=
  editor_tool_cycle 2 (by decide)

/-- C10 counterexample: the player pDrift has horizontal velocity of
magnitude 1/2 < 1 (and 2/5 < 1 after friction), yet one Player.update
moves it from x = 5 to x = 4: truncation of position + velocity toward
zero turns a small negative velocity into a one-pixel step, so a
sub-unit velocity does NOT always produce zero movement. -/
theorem player_subunit_velocity_moves :
    pDrift.velx = -1/2 ∧ pDrift.rect.x = 5 ∧
    (Player.update keysNone [] pDrift).rect.x ≠ pDrift.rect.x := by
  refine ⟨rfl, rfl, ?_⟩
  have h4 : (Player.update keysNone [] pDrift).rect.x = 4 := by
    norm_num [Player.update, stepBounds, clampLeft, clampRight, clampBottom, stepMoveY,
      stepMoveX, stepGravity, stepJump, stepInput, xMoved, yMoved, pyInt, keysNone, pDrift,
      LEVEL_WIDTH, LEVEL_HEIGHT]
  rw [h4]
  decide

/-- C10 amended: positions are integers (the model's rect fields are
integers, as pygame's are) and the tick assigns the truncation toward
zero of position + velocity.  Hence with no keys held and no blocks, a
nonnegative post-friction vel.x below 1 produces no horizontal movement,
but a negative post-friction vel.x of magnitude below 1 still moves a
player at positive x by exactly -1 each tick; vel.x itself is only
multiplied by 0.8 and never becomes zero. -/
theorem player_subunit_velocity_truncation (k : Keys) (p : Player)
    (hkl : k.left = false) (hkr : k.right = false)
    (hx0 : 0 ≤ p.rect.x) (hxw : p.rect.x + p.rect.w ≤ LEVEL_WIDTH) :
    (0 ≤ p.velx * (4 / 5) → p.velx * (4 / 5) < 1 →
      (Player.update k [] p).rect.x = p.rect.x) ∧
    (-1 < p.velx * (4 / 5) → p.velx * (4 / 5) < 0 → 1 ≤ p.rect.x →
      (Player.update k [] p).rect.x = p.rect.x - 1) ∧
    (Player.update k [] p).velx = p.velx * (4 / 5) := by
  have hupd : Player.update k [] p =
      stepBounds (stepMoveY [] (stepMoveX [] (stepGravity (stepJump k (stepInput k p))))) := rfl
  set s2 := stepGravity (stepJump k (stepInput k p)) with hs2
  have hr2 : s2.rect = p.rect := by
    rw [hs2, stepGravity_rect, stepJump_rect, stepInput_rect]
  have hv2 : s2.velx = p.velx * (4 / 5) := by
    rw [hs2, stepGravity_velx, stepJump_velx, stepInput_velx_coast k p hkl hkr]
  have hmx := stepMoveX_nil s2
  set s3 : Player := { s2 with rect := xMoved s2 } with hs3
  have hmy := stepMoveY_nil s3
  set s4 : Player := { s3 with rect := yMoved s3, on_ground := false } with hs4
  have hx4 : s4.rect.x = pyInt ((p.rect.x : ℚ) + p.velx * (4 / 5)) := by
    show (xMoved s2).x = _
    show pyInt ((s2.rect.x : ℚ) + s2.velx) = _
    rw [hr2, hv2]
  have hw4 : s4.rect.w = p.rect.w := by
    show (xMoved s2).w = p.rect.w
    rw [xMoved_w, hr2]
  have hvx4 : s4.velx = p.velx * (4 / 5) := by
    show s2.velx = _
    exact hv2
  refine ⟨?_, ?_, ?_⟩
  · intro h0 h1
    have hfz : ⌊p.velx * (4 / 5)⌋ = 0 :=
      Int.floor_eq_iff.mpr ⟨by push_cast; linarith, by push_cast; linarith⟩
    have hxval : s4.rect.x = p.rect.x := by
      rw [hx4, pyInt_int_add p.rect.x _ (by
        have hcx : (0 : ℚ) ≤ (p.rect.x : ℚ) := by exact_mod_cast hx0
        linarith), hfz]
      omega
    rw [hupd, hmx, hmy]
    show (clampBottom (clampRight (clampLeft s4))).rect.x = p.rect.x
    rw [clampLeft_of_nonneg s4 (by rw [hxval]; exact hx0),
        clampRight_of_le s4 (by rw [hxval, hw4]; exact hxw), clampBottom_x]
    exact hxval
  · intro hm1 h0 hx1
    have hfz : ⌊p.velx * (4 / 5)⌋ = -1 :=
      Int.floor_eq_iff.mpr ⟨by push_cast; linarith, by push_cast; linarith⟩
    have hxval : s4.rect.x = p.rect.x - 1 := by
      rw [hx4, pyInt_int_add p.rect.x _ (by
        have hcx : (1 : ℚ) ≤ (p.rect.x : ℚ) := by exact_mod_cast hx1
        linarith), hfz]
      omega
    rw [hupd, hmx, hmy]
    show (clampBottom (clampRight (clampLeft s4))).rect.x = p.rect.x - 1
    rw [clampLeft_of_nonneg s4 (by rw [hxval]; omega),
        clampRight_of_le s4 (by rw [hxval, hw4]; omega), clampBottom_x]
    exact hxval
  · rw [hupd, hmx, hmy]
    show (clampBottom (clampRight (clampLeft s4))).velx = p.velx * (4 / 5)
    rw [clampBottom_velx, clampRight_velx, clampLeft_velx]
    exact hvx4

/-- C10 amended witness: pDrift (x = 5, vel.x = -1/2, post-friction
-2/5) moves to x = 4 in one tick. -/
theorem player_subunit_velocity_truncation_witness :
    (Player.update keysNone [] pDrift).rect.x = 4 :=
  (player_subunit_velocity_truncation keysNone pDrift rfl rfl (by decide) (by decide)).2.1
    (by norm_num [pDrift]) (by norm_num [pDrift]) (by decide)
